import Mathlib

/-!
Verification of the booking/quota engine of the golgi-connect dormitory
resource-booking portal.  The logic under test lives in the per-page
mutation handlers (src/pages/Laundry.tsx and src/pages/Gym.tsx, plus the
historical variants of the same pages kept in the repository), in the slot
helpers of src/lib/slots.ts, and in the SQL migration that declares the
bookings table together with its partial unique index
uniq_active_booking_per_slot.  Those operations are embedded here as pure
functions over an explicit ledger state; theorems at the end settle the
specified properties.
-/

namespace GolgiConnect

/-- The resource_type enum of the SQL schema: washers (LAV), dryers (ASC),
gym (GYM). -/
inductive ResourceType where
  | LAV
  | ASC
  | GYM
deriving DecidableEq, Repr

/-- The booking_status enum of the SQL schema. -/
inductive BookingStatus where
  | booked
  | cancelled
  | noShow
deriving DecidableEq, Repr

/-- A row of the bookings table.  Ids, user ids and slot ids are naturals;
booking_date counts days from a fixed Monday epoch, so the ISO week of a
date is date / 7; timestamps are naturals.  created_at (DEFAULT NOW) is
kept but fixed at 0, since no checked behaviour reads it. -/
structure Booking where
  id : Nat
  userId : Nat
  slotId : Nat
  bookingDate : Nat
  resourceType : ResourceType
  units : Nat
  status : BookingStatus
  cancelledBy : Option Nat
  cancelledAt : Option Nat
  cancellationReason : Option String
  createdAt : Nat
deriving DecidableEq, Repr

/-- A row of the slots table (times in minutes since midnight). -/
structure Slot where
  id : Nat
  resourceType : ResourceType
  dayOfWeek : Nat
  startTime : Nat
  endTime : Nat
  capacity : Nat
  isActive : Bool
deriving DecidableEq, Repr

/-- The bookings table plus the id sequence used for fresh primary keys. -/
structure LedgerState where
  rows : List Booking
  nextId : Nat
deriving DecidableEq, Repr

/-- The empty ledger. -/
def initialState : LedgerState := { rows := [], nextId := 0 }

/-- The identity-tuple filter used verbatim by the idempotence pre-check,
the post-conflict refetch and the partial unique index: user_id, slot_id,
booking_date, resource_type all equal and status = booked. -/
def activeForB (u sl d : Nat) (rt : ResourceType) (b : Booking) : Bool :=
  decide (b.userId = u) && decide (b.slotId = sl) && decide (b.bookingDate = d) &&
    decide (b.resourceType = rt) && decide (b.status = BookingStatus.booked)

/-- The maybeSingle lookup of an existing active booking for the identity
tuple (Laundry.tsx lines 104-112, Gym.tsx lines 102-110). -/
def findActive (s : LedgerState) (u sl d : Nat) (rt : ResourceType) : Option Booking :=
  s.rows.find? (activeForB u sl d rt)

/-- Whether the partial unique index uniq_active_booking_per_slot
(migration lines 371-373) rejects an insert for this identity tuple. -/
def hasActive (s : LedgerState) (u sl d : Nat) (rt : ResourceType) : Bool :=
  s.rows.any (activeForB u sl d rt)

/-- A PostgREST error as the client sees it; 23505 is PostgreSQL
unique_violation. -/
structure DbError where
  code : Nat
deriving DecidableEq, Repr

/-- Outcome of a booking mutationFn: a returned booking row, one of the
thrown Error messages, or a rethrown store error. -/
inductive MutationResult where
  | ok (b : Booking)
  | quotaExceeded
  | weeklyCap
  | standingCap
  | raised (e : DbError)
deriving DecidableEq, Repr

/-- The row built by the supabase insert: status booked, units defaulting
to 1 (the bookings.units column has DEFAULT 1; the Laundry insert omits it
and the Gym insert passes 1), cancellation fields null. -/
def mkBooking (i u sl d : Nat) (rt : ResourceType) (units : Nat) : Booking :=
  { id := i, userId := u, slotId := sl, bookingDate := d, resourceType := rt,
    units := units, status := BookingStatus.booked, cancelledBy := none,
    cancelledAt := none, cancellationReason := none, createdAt := 0 }

/-- Post-state of a successful insert: the new row appended, the id
sequence advanced. -/
def insertPost (s : LedgerState) (u sl d : Nat) (rt : ResourceType) : LedgerState :=
  { rows := s.rows ++ [mkBooking s.nextId u sl d rt 1], nextId := s.nextId + 1 }

/-- createBooking mutationFn of src/pages/Laundry.tsx (lines 89-153).
quotaCount is the lav_count or asc_count value the page reads from the
weekly_quotas cache table for the selected week (no code in the repository
ever writes that table).  Control flow: quota check (currentCount >=
maxCount throws), idempotence lookup, insert guarded by the unique index,
and on a 23505 error a refetch that is returned when it finds a row, the
raw error being rethrown otherwise. -/
def createLav (s : LedgerState) (u sl d : Nat) (rt : ResourceType) (quotaCount : Nat) :
    MutationResult × LedgerState :=
  if (if rt = ResourceType.LAV then 3 else 2) ≤ quotaCount then
    (MutationResult.quotaExceeded, s)
  else
    match findActive s u sl d rt with
    | some existing => (MutationResult.ok existing, s)
    | none =>
      if hasActive s u sl d rt then
        match findActive s u sl d rt with
        | some raceData => (MutationResult.ok raceData, s)
        | none => (MutationResult.raised { code := 23505 }, s)
      else
        (MutationResult.ok (mkBooking s.nextId u sl d rt 1), insertPost s u sl d rt)

/-- The weeklyBookings query of src/pages/Gym.tsx (lines 64-85): the
user's active GYM bookings whose booking_date lies in the selected week
(weeks are the 7-day blocks of the Monday-epoch day count, so the week of
a date is date / 7). -/
def weeklyGymCount (s : LedgerState) (u wk : Nat) : Nat :=
  s.rows.countP (fun b =>
    decide (b.userId = u) && decide (b.resourceType = ResourceType.GYM) &&
      decide (b.status = BookingStatus.booked) && decide (b.bookingDate / 7 = wk))

/-- createBooking mutationFn of src/pages/Gym.tsx (lines 90-151): weekly
cap of 4 (weeklyBookings.length >= 4 throws), then the same idempotence
lookup, guarded insert and 23505 recovery as the Laundry page, with
resource_type GYM and units 1. -/
def createGym (s : LedgerState) (u sl d : Nat) : MutationResult × LedgerState :=
  if 4 ≤ weeklyGymCount s u (d / 7) then
    (MutationResult.weeklyCap, s)
  else
    match findActive s u sl d ResourceType.GYM with
    | some existing => (MutationResult.ok existing, s)
    | none =>
      if hasActive s u sl d ResourceType.GYM then
        match findActive s u sl d ResourceType.GYM with
        | some raceData => (MutationResult.ok raceData, s)
        | none => (MutationResult.raised { code := 23505 }, s)
      else
        (MutationResult.ok (mkBooking s.nextId u sl d ResourceType.GYM 1),
         insertPost s u sl d ResourceType.GYM)

/-- The activeBookings query of the historical Gym page
(src/unnamed/part_003, lines 62-82): the user's active GYM bookings with
booking_date ≥ today. -/
def countActiveFuture (s : LedgerState) (u today : Nat) : Nat :=
  s.rows.countP (fun b =>
    decide (b.userId = u) && decide (b.resourceType = ResourceType.GYM) &&
      decide (b.status = BookingStatus.booked) && decide (today ≤ b.bookingDate))

/-- createBooking of the historical Gym page (src/unnamed/part_003, lines
84-107): a standing cap of one active future booking
(activeBookings.length >= 1 throws), then a bare insert with no
idempotence pre-check and no 23505 recovery — a store error is rethrown
raw. -/
def createGymStanding (s : LedgerState) (u sl d today : Nat) :
    MutationResult × LedgerState :=
  if 1 ≤ countActiveFuture s u today then
    (MutationResult.standingCap, s)
  else if hasActive s u sl d ResourceType.GYM then
    (MutationResult.raised { code := 23505 }, s)
  else
    (MutationResult.ok (mkBooking s.nextId u sl d ResourceType.GYM 1),
     insertPost s u sl d ResourceType.GYM)

/-- createBooking of the oldest Gym page (src/unnamed/part_004, lines
61-79) and of the historical Laundry page after its quota check
(src/unnamed/part_002): a bare insert with no pre-checks and no error
recovery. -/
def createDirect (s : LedgerState) (u sl d : Nat) (rt : ResourceType) :
    MutationResult × LedgerState :=
  if hasActive s u sl d rt then
    (MutationResult.raised { code := 23505 }, s)
  else
    (MutationResult.ok (mkBooking s.nextId u sl d rt 1), insertPost s u sl d rt)

/-- The field update of the cancel mutation: status cancelled,
cancelled_by the acting user, cancelled_at the current time. -/
def applyCancel (uid t : Nat) (b : Booking) : Booking :=
  { b with status := BookingStatus.cancelled, cancelledBy := some uid,
           cancelledAt := some t }

/-- cancelBooking mutationFn of src/pages/Laundry.tsx (lines 169-181) and
src/pages/Gym.tsx (lines 166-178): update bookings set status, cancelled_by,
cancelled_at where id = bookingId.  The update is unconditional on the
current status and an update matching zero rows is not a store error, so
the result is always a success (error none). -/
def cancelBooking (s : LedgerState) (bid uid t : Nat) :
    Option DbError × LedgerState :=
  (none,
   { s with rows := s.rows.map (fun b => if b.id = bid then applyCancel uid t b else b) })

/-- Sum of units over the active bookings of a slot/date — the capacity
accounting of the spec (the pages themselves render slotBookings.length
against a hard-coded capacity but never check it in a mutation). -/
def takenUnits (s : LedgerState) (sl d : Nat) : Nat :=
  ((s.rows.filter (fun b =>
      decide (b.slotId = sl) && decide (b.bookingDate = d) &&
        decide (b.status = BookingStatus.booked))).map Booking.units).sum

/-- Sum of units over a user's active LAV bookings in a week — the quota
usage basis named by the spec. -/
def weeklyLavUnits (s : LedgerState) (u wk : Nat) : Nat :=
  ((s.rows.filter (fun b =>
      decide (b.userId = u) && decide (b.resourceType = ResourceType.LAV) &&
        decide (b.status = BookingStatus.booked) && decide (b.bookingDate / 7 = wk))).map
    Booking.units).sum

/-- Row lookup by primary key. -/
def lookupId (s : LedgerState) (i : Nat) : Option Booking :=
  s.rows.find? (fun b => decide (b.id = i))

/-- The slot's end instant in minutes: its date (days from epoch) at end
time h hours m minutes. -/
def slotEndInstant (d hh mm : Nat) : Nat := d * 1440 + hh * 60 + mm

/-- isSlotPast of src/lib/slots.ts (src/unnamed/part_000 lines 231-237):
true iff the slot's end instant is strictly before now. -/
def isSlotPast (d hh mm now : Nat) : Bool := decide (slotEndInstant d hh mm < now)

/-- The three store round-trips of the Laundry createBooking, as a record
of responses: the idempotence lookup, the insert outcome and the
post-conflict refetch.  Passing them explicitly lets the handler be
evaluated on responses produced by interleaved concurrent writers. -/
inductive InsertOutcome where
  | ok (b : Booking)
  | err (e : DbError)
deriving DecidableEq, Repr

structure StoreTrace where
  existing : Option Booking
  insertOutcome : InsertOutcome
  refetch : Option Booking
deriving DecidableEq, Repr

/-- Control flow of the Laundry createBooking mutationFn (src/pages/
Laundry.tsx lines 89-153) over explicit store responses: quota check,
return of an existing row, then insert; on an error with code 23505 the
refetched row is returned when present and the raw error is rethrown
otherwise; a non-23505 error is rethrown directly. -/
def createLavHandler (quotaCount : Nat) (rt : ResourceType) (tr : StoreTrace) :
    MutationResult :=
  if (if rt = ResourceType.LAV then 3 else 2) ≤ quotaCount then
    MutationResult.quotaExceeded
  else
    match tr.existing with
    | some existing => MutationResult.ok existing
    | none =>
      match tr.insertOutcome with
      | InsertOutcome.ok b => MutationResult.ok b
      | InsertOutcome.err e =>
        if e.code = 23505 then
          match tr.refetch with
          | some raceData => MutationResult.ok raceData
          | none => MutationResult.raised e
        else MutationResult.raised e

/-- One caller-visible operation of the booking engine, over all the
mutation variants present in the repository. -/
inductive Op where
  | opCreateLav (u sl d : Nat) (rt : ResourceType) (quotaCount : Nat)
  | opCreateGym (u sl d : Nat)
  | opCreateGymStanding (u sl d today : Nat)
  | opCreateDirect (u sl d : Nat) (rt : ResourceType)
  | opCancel (bid uid t : Nat)
deriving DecidableEq, Repr

/-- State transition of one operation. -/
def step (s : LedgerState) : Op → LedgerState
  | Op.opCreateLav u sl d rt q => (createLav s u sl d rt q).2
  | Op.opCreateGym u sl d => (createGym s u sl d).2
  | Op.opCreateGymStanding u sl d today => (createGymStanding s u sl d today).2
  | Op.opCreateDirect u sl d rt => (createDirect s u sl d rt).2
  | Op.opCancel bid uid t => (cancelBooking s bid uid t).2

/-- The ledger state reached from the empty ledger by a sequence of
operations. -/
def run (ops : List Op) : LedgerState := ops.foldl step initialState

/-- Uniqueness invariant: at most one active booking per identity tuple. -/
def UniqueActive (s : LedgerState) : Prop :=
  ∀ u sl d rt, s.rows.countP (activeForB u sl d rt) ≤ 1

/-- Every stored id is below the id sequence, so fresh ids never collide. -/
def IdsBounded (s : LedgerState) : Prop :=
  ∀ b ∈ s.rows, b.id < s.nextId

/-- The Monday 08:00-09:30 LAV slot as seeded by the migration (capacity
2, the two physical washers). -/
def lavSlotMon0800 : Slot :=
  { id := 1, resourceType := ResourceType.LAV, dayOfWeek := 1, startTime := 480,
    endTime := 570, capacity := 2, isActive := true }

/-- A ledger in which users 1 and 2 each hold one active LAV booking of
slot 1 on date 0, filling the slot's capacity of 2. -/
def lavFullState : LedgerState :=
  { rows := [mkBooking 0 1 1 0 ResourceType.LAV 1, mkBooking 1 2 1 0 ResourceType.LAV 1],
    nextId := 2 }

/-- A ledger in which user 1 holds three active LAV bookings (3 units) in
week 0, the spec's weekly limit. -/
def lavQuotaState : LedgerState :=
  { rows := [mkBooking 0 1 1 0 ResourceType.LAV 1, mkBooking 1 1 2 1 ResourceType.LAV 1,
             mkBooking 2 1 3 2 ResourceType.LAV 1],
    nextId := 3 }

/-- A ledger in which user 1 holds three active GYM bookings in week 0. -/
def gymWeekState : LedgerState :=
  { rows := [mkBooking 0 1 11 1 ResourceType.GYM 1, mkBooking 1 1 12 2 ResourceType.GYM 1,
             mkBooking 2 1 13 3 ResourceType.GYM 1],
    nextId := 3 }

/-- A ledger in which user 1 holds exactly one active future GYM booking
(date 1, seen from today = 0). -/
def gymOneFutureState : LedgerState :=
  { rows := [mkBooking 0 1 11 1 ResourceType.GYM 1], nextId := 1 }

/-- A ledger with a single active LAV booking, id 0. -/
def oneBookingState : LedgerState :=
  { rows := [mkBooking 0 1 1 0 ResourceType.LAV 1], nextId := 1 }

/-- An operation history: user 1 books slot 5 on date 0 and then cancels
that booking (id 0) at time 99. -/
def opsEx : List Op := [Op.opCreateDirect 1 5 0 ResourceType.LAV, Op.opCancel 0 1 99]

/-- The cancelled row left behind by opsEx. -/
def cancelledBookingEx : Booking :=
  applyCancel 1 99 (mkBooking 0 1 5 0 ResourceType.LAV 1)

/-! Helper lemmas about the filters, the insert effect and the two ledger
invariants. -/

theorem activeForB_iff (u sl d : Nat) (rt : ResourceType) (b : Booking) :
    activeForB u sl d rt b = true ↔
      b.userId = u ∧ b.slotId = sl ∧ b.bookingDate = d ∧ b.resourceType = rt ∧
        b.status = BookingStatus.booked := by
  simp [activeForB, and_assoc]

theorem activeForB_mkBooking (u sl d u0 sl0 d0 i units : Nat) (rt rt0 : ResourceType) :
    activeForB u sl d rt (mkBooking i u0 sl0 d0 rt0 units) = true ↔
      u0 = u ∧ sl0 = sl ∧ d0 = d ∧ rt0 = rt := by
  simp [activeForB, mkBooking, and_assoc]

theorem activeForB_mk_self (u sl d i units : Nat) (rt : ResourceType) :
    activeForB u sl d rt (mkBooking i u sl d rt units) = true := by
  simp [activeForB, mkBooking]

theorem findActive_none_of_hasActive_false {s : LedgerState} {u sl d : Nat}
    {rt : ResourceType} (h : hasActive s u sl d rt = false) :
    findActive s u sl d rt = none := by
  rw [findActive, List.find?_eq_none]
  intro b hb hpb
  have : s.rows.any (activeForB u sl d rt) = true := List.any_eq_true.mpr ⟨b, hb, hpb⟩
  rw [hasActive] at h
  rw [h] at this
  exact Bool.false_ne_true this

theorem hasActive_false_of_findActive_none {s : LedgerState} {u sl d : Nat}
    {rt : ResourceType} (h : findActive s u sl d rt = none) :
    hasActive s u sl d rt = false := by
  rw [findActive, List.find?_eq_none] at h
  rw [hasActive]
  by_contra hx
  rcases List.any_eq_true.mp (eq_true_of_ne_false hx) with ⟨b, hb, hpb⟩
  exact h b hb hpb

theorem countP_zero_of_hasActive_false {s : LedgerState} {u sl d : Nat}
    {rt : ResourceType} (h : hasActive s u sl d rt = false) :
    s.rows.countP (activeForB u sl d rt) = 0 := by
  rw [List.countP_eq_zero]
  intro b hb hpb
  have : s.rows.any (activeForB u sl d rt) = true := List.any_eq_true.mpr ⟨b, hb, hpb⟩
  rw [hasActive] at h
  rw [h] at this
  exact Bool.false_ne_true this

theorem countP_insertPost (s : LedgerState) (u sl d u' sl' d' : Nat)
    (rt rt' : ResourceType) :
    (insertPost s u sl d rt).rows.countP (activeForB u' sl' d' rt') =
      s.rows.countP (activeForB u' sl' d' rt') +
        (if activeForB u' sl' d' rt' (mkBooking s.nextId u sl d rt 1) then 1 else 0) := by
  simp [insertPost, List.countP_append, List.countP_cons]

theorem uniqueActive_insertPost {s : LedgerState} {u sl d : Nat} {rt : ResourceType}
    (hs : UniqueActive s) (hna : hasActive s u sl d rt = false) :
    UniqueActive (insertPost s u sl d rt) := by
  intro u' sl' d' rt'
  rw [countP_insertPost]
  by_cases hp : activeForB u' sl' d' rt' (mkBooking s.nextId u sl d rt 1) = true
  · obtain ⟨hu, hsl, hd, hrt⟩ := (activeForB_mkBooking u' sl' d' u sl d s.nextId 1 rt' rt).mp hp
    subst hu; subst hsl; subst hd; subst hrt
    rw [countP_zero_of_hasActive_false hna, hp]
    simp
  · rw [Bool.not_eq_true] at hp
    rw [hp]
    simpa using hs u' sl' d' rt'

theorem activeForB_cancelRow (u sl d bid uid t : Nat) (rt : ResourceType) (b : Booking)
    (h : activeForB u sl d rt (if b.id = bid then applyCancel uid t b else b) = true) :
    activeForB u sl d rt b = true := by
  by_cases hb : b.id = bid
  · rw [if_pos hb] at h
    exfalso
    rcases (activeForB_iff u sl d rt (applyCancel uid t b)).mp h with ⟨-, -, -, -, hst⟩
    simp [applyCancel] at hst
  · rwa [if_neg hb] at h

theorem countP_map_le_of_pres {p : Booking → Bool} {f : Booking → Booking}
    (hf : ∀ b, p (f b) = true → p b = true) (l : List Booking) :
    (l.map f).countP p ≤ l.countP p := by
  induction l with
  | nil => simp
  | cons a l ih =>
    simp only [List.map_cons, List.countP_cons]
    by_cases h : p (f a) = true
    · rw [h, hf a h]
      exact Nat.add_le_add_right ih _
    · rw [Bool.not_eq_true] at h
      rw [h]
      refine le_trans ?_ (Nat.le_add_right _ _)
      simpa using ih

theorem cancel_rows (s : LedgerState) (bid uid t : Nat) :
    (cancelBooking s bid uid t).2.rows =
      s.rows.map (fun b => if b.id = bid then applyCancel uid t b else b) := rfl

theorem uniqueActive_cancel {s : LedgerState} (hs : UniqueActive s) (bid uid t : Nat) :
    UniqueActive (cancelBooking s bid uid t).2 := by
  intro u sl d rt
  rw [cancel_rows]
  exact le_trans
    (countP_map_le_of_pres (fun b => activeForB_cancelRow u sl d bid uid t rt b) s.rows)
    (hs u sl d rt)

theorem idsBounded_insertPost {s : LedgerState} (hs : IdsBounded s)
    (u sl d : Nat) (rt : ResourceType) :
    IdsBounded (insertPost s u sl d rt) := by
  intro b hb
  rcases List.mem_append.mp hb with hb | hb
  · exact Nat.lt_succ_of_lt (hs b hb)
  · rcases List.mem_singleton.mp hb with rfl
    exact Nat.lt_succ_self _

theorem idsBounded_cancel {s : LedgerState} (hs : IdsBounded s) (bid uid t : Nat) :
    IdsBounded (cancelBooking s bid uid t).2 := by
  intro b hb
  rw [cancel_rows] at hb
  rcases List.mem_map.mp hb with ⟨a, ha, rfl⟩
  by_cases h : a.id = bid
  · rw [if_pos h]
    exact hs a ha
  · rw [if_neg h]
    exact hs a ha

theorem createLav_snd (s : LedgerState) (u sl d : Nat) (rt : ResourceType) (q : Nat) :
    (createLav s u sl d rt q).2 = s ∨
      (hasActive s u sl d rt = false ∧
        (createLav s u sl d rt q).2 = insertPost s u sl d rt) := by
  unfold createLav
  by_cases hq : (if rt = ResourceType.LAV then 3 else 2) ≤ q
  · rw [if_pos hq]
    exact Or.inl rfl
  · rw [if_neg hq]
    cases hfa : findActive s u sl d rt with
    | some b => exact Or.inl rfl
    | none =>
      by_cases hha : hasActive s u sl d rt = true
      · rw [if_pos hha]
        cases findActive s u sl d rt with
        | some b => exact Or.inl rfl
        | none => exact Or.inl rfl
      · rw [if_neg hha]
        rw [Bool.not_eq_true] at hha
        exact Or.inr ⟨hha, rfl⟩

theorem createGym_snd (s : LedgerState) (u sl d : Nat) :
    (createGym s u sl d).2 = s ∨
      (hasActive s u sl d ResourceType.GYM = false ∧
        (createGym s u sl d).2 = insertPost s u sl d ResourceType.GYM) := by
  unfold createGym
  by_cases hq : 4 ≤ weeklyGymCount s u (d / 7)
  · rw [if_pos hq]
    exact Or.inl rfl
  · rw [if_neg hq]
    cases hfa : findActive s u sl d ResourceType.GYM with
    | some b => exact Or.inl rfl
    | none =>
      by_cases hha : hasActive s u sl d ResourceType.GYM = true
      · rw [if_pos hha]
        cases findActive s u sl d ResourceType.GYM with
        | some b => exact Or.inl rfl
        | none => exact Or.inl rfl
      · rw [if_neg hha]
        rw [Bool.not_eq_true] at hha
        exact Or.inr ⟨hha, rfl⟩

theorem createGymStanding_snd (s : LedgerState) (u sl d today : Nat) :
    (createGymStanding s u sl d today).2 = s ∨
      (hasActive s u sl d ResourceType.GYM = false ∧
        (createGymStanding s u sl d today).2 = insertPost s u sl d ResourceType.GYM) := by
  unfold createGymStanding
  by_cases hq : 1 ≤ countActiveFuture s u today
  · rw [if_pos hq]
    exact Or.inl rfl
  · rw [if_neg hq]
    by_cases hha : hasActive s u sl d ResourceType.GYM = true
    · rw [if_pos hha]
      exact Or.inl rfl
    · rw [if_neg hha]
      rw [Bool.not_eq_true] at hha
      exact Or.inr ⟨hha, rfl⟩

theorem createDirect_snd (s : LedgerState) (u sl d : Nat) (rt : ResourceType) :
    (createDirect s u sl d rt).2 = s ∨
      (hasActive s u sl d rt = false ∧
        (createDirect s u sl d rt).2 = insertPost s u sl d rt) := by
  unfold createDirect
  by_cases hha : hasActive s u sl d rt = true
  · rw [if_pos hha]
    exact Or.inl rfl
  · rw [if_neg hha]
    rw [Bool.not_eq_true] at hha
    exact Or.inr ⟨hha, rfl⟩

/-- Every step either leaves the ledger unchanged, performs a guarded
insert, or performs the cancel update. -/
theorem step_snd_cases (s : LedgerState) (op : Op) :
    step s op = s ∨
      (∃ u sl d rt, hasActive s u sl d rt = false ∧ step s op = insertPost s u sl d rt) ∨
      (∃ bid uid t, step s op = (cancelBooking s bid uid t).2) := by
  cases op with
  | opCreateLav u sl d rt q =>
    rcases createLav_snd s u sl d rt q with h | ⟨hna, h⟩
    · exact Or.inl h
    · exact Or.inr (Or.inl ⟨u, sl, d, rt, hna, h⟩)
  | opCreateGym u sl d =>
    rcases createGym_snd s u sl d with h | ⟨hna, h⟩
    · exact Or.inl h
    · exact Or.inr (Or.inl ⟨u, sl, d, ResourceType.GYM, hna, h⟩)
  | opCreateGymStanding u sl d today =>
    rcases createGymStanding_snd s u sl d today with h | ⟨hna, h⟩
    · exact Or.inl h
    · exact Or.inr (Or.inl ⟨u, sl, d, ResourceType.GYM, hna, h⟩)
  | opCreateDirect u sl d rt =>
    rcases createDirect_snd s u sl d rt with h | ⟨hna, h⟩
    · exact Or.inl h
    · exact Or.inr (Or.inl ⟨u, sl, d, rt, hna, h⟩)
  | opCancel bid uid t =>
    exact Or.inr (Or.inr ⟨bid, uid, t, rfl⟩)

theorem step_uniqueActive {s : LedgerState} (hs : UniqueActive s) (op : Op) :
    UniqueActive (step s op) := by
  rcases step_snd_cases s op with h | ⟨u, sl, d, rt, hna, h⟩ | ⟨bid, uid, t, h⟩
  · rwa [h]
  · rw [h]; exact uniqueActive_insertPost hs hna
  · rw [h]; exact uniqueActive_cancel hs bid uid t

theorem step_idsBounded {s : LedgerState} (hs : IdsBounded s) (op : Op) :
    IdsBounded (step s op) := by
  rcases step_snd_cases s op with h | ⟨u, sl, d, rt, hna, h⟩ | ⟨bid, uid, t, h⟩
  · rwa [h]
  · rw [h]; exact idsBounded_insertPost hs u sl d rt
  · rw [h]; exact idsBounded_cancel hs bid uid t

theorem foldl_uniqueActive (ops : List Op) :
    ∀ s : LedgerState, UniqueActive s → UniqueActive (ops.foldl step s) := by
  induction ops with
  | nil => exact fun s hs => hs
  | cons op ops ih => exact fun s hs => ih (step s op) (step_uniqueActive hs op)

theorem foldl_idsBounded (ops : List Op) :
    ∀ s : LedgerState, IdsBounded s → IdsBounded (ops.foldl step s) := by
  induction ops with
  | nil => exact fun s hs => hs
  | cons op ops ih => exact fun s hs => ih (step s op) (step_idsBounded hs op)

theorem run_uniqueActive (ops : List Op) : UniqueActive (run ops) :=
  foldl_uniqueActive ops initialState (fun u sl d rt => by simp [initialState])

theorem run_idsBounded (ops : List Op) : IdsBounded (run ops) :=
  foldl_idsBounded ops initialState (fun b hb => by simp [initialState] at hb)

theorem lookupId_mem_id {s : LedgerState} {i : Nat} {b : Booking}
    (h : lookupId s i = some b) : b ∈ s.rows ∧ b.id = i := by
  rw [lookupId] at h
  have hp := List.find?_some h
  simp only [decide_eq_true_eq] at hp
  exact ⟨List.mem_of_find?_eq_some h, hp⟩

theorem lookupId_insertPost {s : LedgerState} {i : Nat} {b : Booking}
    (h : lookupId s i = some b) (u sl d : Nat) (rt : ResourceType) :
    lookupId (insertPost s u sl d rt) i = some b := by
  rw [lookupId, insertPost, List.find?_append]
  rw [lookupId] at h
  rw [h]
  rfl

theorem lookupId_cancel (s : LedgerState) (bid uid t i : Nat) :
    lookupId (cancelBooking s bid uid t).2 i =
      (lookupId s i).map (fun b => if b.id = bid then applyCancel uid t b else b) := by
  rw [lookupId, cancel_rows, List.find?_map, lookupId]
  have hfun : ((fun b : Booking => decide (b.id = i)) ∘
      fun b => if b.id = bid then applyCancel uid t b else b) =
      fun b : Booking => decide (b.id = i) := by
    funext b
    by_cases h : b.id = bid
    · simp [Function.comp, h, applyCancel]
    · simp [Function.comp, h]
  rw [hfun]

theorem applyCancel_status (uid t : Nat) (b : Booking) :
    (applyCancel uid t b).status = BookingStatus.cancelled := rfl

theorem step_pres_cancelled {s : LedgerState} {i : Nat} {b : Booking} (op : Op)
    (h : lookupId s i = some b) (hc : b.status = BookingStatus.cancelled) :
    ∃ b2, lookupId (step s op) i = some b2 ∧ b2.status = BookingStatus.cancelled := by
  rcases step_snd_cases s op with hs | ⟨u, sl, d, rt, hna, hs⟩ | ⟨bid, uid, t, hs⟩
  · exact ⟨b, by rw [hs]; exact h, hc⟩
  · exact ⟨b, by rw [hs]; exact lookupId_insertPost h u sl d rt, hc⟩
  · rw [hs, lookupId_cancel, h]
    by_cases hid : b.id = bid
    · exact ⟨applyCancel uid t b, by simp [hid], applyCancel_status uid t b⟩
    · exact ⟨b, by simp [hid], hc⟩

theorem foldl_pres_cancelled (ops : List Op) :
    ∀ (s : LedgerState) (i : Nat) (b : Booking),
      lookupId s i = some b → b.status = BookingStatus.cancelled →
      ∃ b2, lookupId (ops.foldl step s) i = some b2 ∧
        b2.status = BookingStatus.cancelled := by
  induction ops with
  | nil => exact fun s i b h hc => ⟨b, h, hc⟩
  | cons op ops ih =>
    intro s i b h hc
    rcases step_pres_cancelled op h hc with ⟨b2, h2, hc2⟩
    exact ih (step s op) i b2 h2 hc2

/-- When the quota check passes and an active identical row exists, the
Laundry createBooking returns that row and leaves the ledger unchanged. -/
theorem createLav_found {s : LedgerState} {u sl d : Nat} {rt : ResourceType} {q : Nat}
    (hq : q < (if rt = ResourceType.LAV then 3 else 2)) {b : Booking}
    (hfa : findActive s u sl d rt = some b) :
    createLav s u sl d rt q = (MutationResult.ok b, s) := by
  unfold createLav
  rw [if_neg (Nat.not_le.mpr hq), hfa]

/-- When the quota check passes and no active identical row exists, the
Laundry createBooking inserts a fresh row. -/
theorem createLav_insert {s : LedgerState} {u sl d : Nat} {rt : ResourceType} {q : Nat}
    (hq : q < (if rt = ResourceType.LAV then 3 else 2))
    (hna : hasActive s u sl d rt = false) :
    createLav s u sl d rt q =
      (MutationResult.ok (mkBooking s.nextId u sl d rt 1), insertPost s u sl d rt) := by
  unfold createLav
  rw [if_neg (Nat.not_le.mpr hq), findActive_none_of_hasActive_false hna, hna]
  rfl

/-- After a fresh insert, the pre-check lookup finds exactly the inserted
row. -/
theorem findActive_insertPost_self {s : LedgerState} {u sl d : Nat} {rt : ResourceType}
    (hna : hasActive s u sl d rt = false) :
    findActive (insertPost s u sl d rt) u sl d rt =
      some (mkBooking s.nextId u sl d rt 1) := by
  have h1 : findActive s u sl d rt = none := findActive_none_of_hasActive_false hna
  rw [findActive] at h1
  rw [findActive, insertPost, List.find?_append, h1]
  have h2 : List.find? (activeForB u sl d rt) [mkBooking s.nextId u sl d rt 1] =
      some (mkBooking s.nextId u sl d rt 1) :=
    List.find?_cons_of_pos _ (activeForB_mk_self u sl d s.nextId 1 rt)
  rw [h2]
  rfl

theorem countP_one_of_findActive_some {s : LedgerState} {u sl d : Nat}
    {rt : ResourceType} {b : Booking} (hs : UniqueActive s)
    (hfa : findActive s u sl d rt = some b) :
    s.rows.countP (activeForB u sl d rt) = 1 := by
  rw [findActive] at hfa
  have hmem : b ∈ s.rows := List.mem_of_find?_eq_some hfa
  have hp : activeForB u sl d rt b = true := List.find?_some hfa
  have h1 : 0 < s.rows.countP (activeForB u sl d rt) :=
    List.countP_pos_iff.mpr ⟨b, hmem, hp⟩
  have h2 := hs u sl d rt
  omega

/-- A fresh insert adds exactly one active unit to its slot/date. -/
theorem takenUnits_insertPost (s : LedgerState) (u sl d : Nat) (rt : ResourceType) :
    takenUnits (insertPost s u sl d rt) sl d = takenUnits s sl d + 1 := by
  rw [takenUnits, takenUnits, insertPost]
  rw [List.filter_append, List.map_append, List.sum_append]
  have h2 : (List.filter (fun b =>
      decide (b.slotId = sl) && decide (b.bookingDate = d) &&
        decide (b.status = BookingStatus.booked)) [mkBooking s.nextId u sl d rt 1]) =
      [mkBooking s.nextId u sl d rt 1] := by
    simp [mkBooking]
  rw [h2]
  rfl

theorem applyCancel_id (uid t : Nat) (b : Booking) :
    (applyCancel uid t b).id = b.id := rfl

theorem applyCancel_applyCancel (u1 t1 u2 t2 : Nat) (b : Booking) :
    applyCancel u2 t2 (applyCancel u1 t1 b) =
      { b with status := BookingStatus.cancelled, cancelledBy := some u2,
               cancelledAt := some t2 } := rfl

/-- C1 counterexample: the Gym createBooking is not idempotent at the
weekly-cap boundary.  User 1 holds three active GYM bookings in the week;
a create for a fourth slot succeeds, but the identical repeated call fails
with the weekly-cap error instead of returning the existing booking,
because the cap check (weeklyBookings.length >= 4) runs before the
idempotence lookup. -/
theorem C1_gym_repeat_counterexample :
    (createGym gymWeekState 1 10 4).1 =
        MutationResult.ok (mkBooking 3 1 10 4 ResourceType.GYM 1) ∧
      (createGym (createGym gymWeekState 1 10 4).2 1 10 4).1 =
        MutationResult.weeklyCap := by
  decide

/-- C3 counterexample: an execution in which the store rejects the insert
with unique_violation 23505 and the post-conflict refetch finds no active
row (the concurrent winner was cancelled in between): the mutationFn
rethrows the raw store error to the caller — it neither re-validates
capacity nor produces a SlotFull outcome. -/
theorem C3_raw_conflict_counterexample :
    createLavHandler 0 ResourceType.LAV
        { existing := none, insertOutcome := InsertOutcome.err { code := 23505 },
          refetch := none } =
      MutationResult.raised { code := 23505 } := by
  decide

/-- C4 counterexample: with slot 1 on date 0 already at its capacity of 2
units, a create by a third user succeeds (the mutationFn has no capacity
check and no SlotFull error), leaving 3 active units on a capacity-2
slot. -/
theorem C4_capacity_exceeded_counterexample :
    takenUnits lavFullState 1 0 = lavSlotMon0800.capacity ∧
      (createLav lavFullState 3 1 0 ResourceType.LAV 0).1 =
        MutationResult.ok (mkBooking 2 3 1 0 ResourceType.LAV 1) ∧
      takenUnits (createLav lavFullState 3 1 0 ResourceType.LAV 0).2 1 0 = 3 ∧
      lavSlotMon0800.capacity < 3 := by
  decide

/-- C5 counterexample: user 1 already holds 3 active LAV units in week 0,
the weekly limit, so by the claim a further create must fail
QuotaExceeded; but the quota check reads the weekly_quotas cache, which no
repository code ever writes (so it still reads 0), and the create
succeeds, leaving 4 active LAV units in the week. -/
theorem C5_quota_cache_counterexample :
    weeklyLavUnits lavQuotaState 1 0 = 3 ∧
      (createLav lavQuotaState 1 4 3 ResourceType.LAV 0).1 =
        MutationResult.ok (mkBooking 3 1 4 3 ResourceType.LAV 1) ∧
      weeklyLavUnits (createLav lavQuotaState 1 4 3 ResourceType.LAV 0).2 1 0 = 4 := by
  decide

/-- C6 counterexample: user 1 already holds one active future GYM booking,
yet the current Gym page's createBooking for a different slot succeeds
(its check is the 4-per-week cap, not a standing future cap), leaving two
active future GYM bookings. -/
theorem C6_standing_cap_counterexample :
    countActiveFuture gymOneFutureState 1 0 = 1 ∧
      (createGym gymOneFutureState 1 12 2).1 =
        MutationResult.ok (mkBooking 1 1 12 2 ResourceType.GYM 1) ∧
      countActiveFuture (createGym gymOneFutureState 1 12 2).2 1 0 = 2 := by
  decide

/-- C7 counterexample: a slot of date 0 ending 09:30 is past at now =
100000 minutes, yet createBooking succeeds — the mutationFn performs no
time check and has no SlotExpired error; isSlotPast gates only the UI
rendering. -/
theorem C7_expired_create_counterexample :
    isSlotPast 0 9 30 100000 = true ∧
      (createLav initialState 1 1 0 ResourceType.LAV 0).1 =
        MutationResult.ok (mkBooking 0 1 1 0 ResourceType.LAV 1) := by
  decide

/-- C8 counterexample: cancelBooking of an id absent from the ledger
returns success (error none, ledger unchanged) instead of failing
NotFound, and a second cancel of an already-cancelled booking re-updates
its record (cancelled_by and cancelled_at now carry the second caller and
time). -/
theorem C8_cancel_notfound_counterexample :
    ((cancelBooking initialState 7 1 5).1 = none ∧
        (cancelBooking initialState 7 1 5).2 = initialState) ∧
      (cancelBooking (cancelBooking oneBookingState 0 1 10).2 0 2 20).2.rows =
        [{ mkBooking 0 1 1 0 ResourceType.LAV 1 with
            status := BookingStatus.cancelled, cancelledBy := some 2,
            cancelledAt := some 20 }] := by
  decide

/-- C1 (amended): idempotent create holds whenever the pre-insert cap
check passes on the repeat, which for the Laundry createBooking is
whenever it passed the first time (its quota check reads the weekly_quotas
cache, an argument unchanged by booking): two calls with identical
arguments both succeed, return the same booking, leave the ledger where
the first call left it, and exactly one active row exists for the identity
tuple.  (The Gym createBooking repeat instead fails at the 4-per-week cap
boundary, per the counterexample.) -/
theorem C1_laundry_idempotent_amended (s : LedgerState) (u sl d : Nat)
    (rt : ResourceType) (q : Nat)
    (hq : q < (if rt = ResourceType.LAV then 3 else 2)) (hs : UniqueActive s) :
    ∃ b, (createLav s u sl d rt q).1 = MutationResult.ok b ∧
      (createLav (createLav s u sl d rt q).2 u sl d rt q).1 = MutationResult.ok b ∧
      (createLav (createLav s u sl d rt q).2 u sl d rt q).2 =
        (createLav s u sl d rt q).2 ∧
      (createLav s u sl d rt q).2.rows.countP (activeForB u sl d rt) = 1 := by
  cases hfa : findActive s u sl d rt with
  | some b =>
    have h1 : createLav s u sl d rt q = (MutationResult.ok b, s) :=
      createLav_found hq hfa
    refine ⟨b, ?_, ?_, ?_, ?_⟩
    · rw [h1]
    · rw [h1, createLav_found hq hfa]
    · rw [h1, createLav_found hq hfa]
    · rw [h1]
      exact countP_one_of_findActive_some hs hfa
  | none =>
    have hna : hasActive s u sl d rt = false := hasActive_false_of_findActive_none hfa
    have h1 : createLav s u sl d rt q =
        (MutationResult.ok (mkBooking s.nextId u sl d rt 1), insertPost s u sl d rt) :=
      createLav_insert hq hna
    have hfa2 : findActive (insertPost s u sl d rt) u sl d rt =
        some (mkBooking s.nextId u sl d rt 1) := findActive_insertPost_self hna
    refine ⟨mkBooking s.nextId u sl d rt 1, ?_, ?_, ?_, ?_⟩
    · rw [h1]
    · rw [h1, createLav_found hq hfa2]
    · rw [h1, createLav_found hq hfa2]
    · rw [h1, countP_insertPost, countP_zero_of_hasActive_false hna,
          activeForB_mk_self]
      simp

/-- C1 witness: on the empty ledger, two identical Laundry create calls
both return booking id 0 and leave one active row. -/
theorem C1_laundry_idempotent_witness :
    ∃ b, (createLav initialState 1 1 0 ResourceType.LAV 0).1 = MutationResult.ok b ∧
      (createLav (createLav initialState 1 1 0 ResourceType.LAV 0).2 1 1 0
          ResourceType.LAV 0).1 = MutationResult.ok b ∧
      (createLav (createLav initialState 1 1 0 ResourceType.LAV 0).2 1 1 0
          ResourceType.LAV 0).2 =
        (createLav initialState 1 1 0 ResourceType.LAV 0).2 ∧
      (createLav initialState 1 1 0 ResourceType.LAV 0).2.rows.countP
          (activeForB 1 1 0 ResourceType.LAV) = 1 :=
  C1_laundry_idempotent_amended initialState 1 1 0 ResourceType.LAV 0 (by decide)
    (fun u sl d rt => by simp [initialState])

/-- C2: in every ledger state reachable by any sequence of the
repository's operations (all createBooking variants and cancelBooking),
each identity tuple (userId, slotId, bookingDate, resourceType) has at
most one booking with status booked, and every operation preserves this:
every insert is guarded by the partial unique index and cancellation only
removes rows from the active count. -/
theorem C2_unique_active_invariant (ops : List Op) (u sl d : Nat) (rt : ResourceType) :
    (run ops).rows.countP (activeForB u sl d rt) ≤ 1 :=
  run_uniqueActive ops u sl d rt

/-- C3 (amended): when the store rejects the insert with unique_violation
23505, createBooking re-fetches the active booking for the identity tuple
and returns it as a success when the refetch finds one; when the refetch
finds nothing, the raw store error is rethrown to the caller.  No branch
re-validates capacity and no SlotFull outcome exists. -/
theorem C3_conflict_recovery_amended (q : Nat) (rt : ResourceType) (e : DbError)
    (tr : StoreTrace) (hq : q < (if rt = ResourceType.LAV then 3 else 2))
    (hex : tr.existing = none) (hins : tr.insertOutcome = InsertOutcome.err e)
    (hcode : e.code = 23505) :
    createLavHandler q rt tr =
      match tr.refetch with
      | some raceData => MutationResult.ok raceData
      | none => MutationResult.raised e := by
  unfold createLavHandler
  rw [if_neg (Nat.not_le.mpr hq), hex, hins]
  show (if e.code = 23505 then
          match tr.refetch with
          | some raceData => MutationResult.ok raceData
          | none => MutationResult.raised e
        else MutationResult.raised e) =
      match tr.refetch with
      | some raceData => MutationResult.ok raceData
      | none => MutationResult.raised e
  rw [if_pos hcode]

/-- C3 witness: a 23505 rejection whose refetch finds the concurrent
winner's row is resolved to success with that row. -/
theorem C3_conflict_recovery_witness :
    createLavHandler 0 ResourceType.LAV
        { existing := none, insertOutcome := InsertOutcome.err { code := 23505 },
          refetch := some (mkBooking 0 1 1 0 ResourceType.LAV 1) } =
      MutationResult.ok (mkBooking 0 1 1 0 ResourceType.LAV 1) :=
  C3_conflict_recovery_amended 0 ResourceType.LAV { code := 23505 }
    { existing := none, insertOutcome := InsertOutcome.err { code := 23505 },
      refetch := some (mkBooking 0 1 1 0 ResourceType.LAV 1) }
    (by decide) rfl rfl rfl

/-- C4 (amended): createBooking performs no capacity check and has no
SlotFull outcome: whenever the quota pre-check passes and no identical
active booking exists, the create succeeds and adds one active unit to the
slot/date, regardless of how the resulting total compares with the slot's
capacity (so the sum of active units can exceed capacityUnits, per the
counterexample; capacity gating exists only in the UI rendering). -/
theorem C4_no_capacity_check_amended (s : LedgerState) (u sl d : Nat)
    (rt : ResourceType) (q : Nat)
    (hq : q < (if rt = ResourceType.LAV then 3 else 2))
    (hna : hasActive s u sl d rt = false) :
    (createLav s u sl d rt q).1 = MutationResult.ok (mkBooking s.nextId u sl d rt 1) ∧
      takenUnits (createLav s u sl d rt q).2 sl d = takenUnits s sl d + 1 := by
  rw [createLav_insert hq hna]
  exact ⟨rfl, takenUnits_insertPost s u sl d rt⟩

/-- C4 witness: on the empty ledger a create succeeds and raises the
slot/date unit total from 0 to 1. -/
theorem C4_no_capacity_check_witness :
    (createLav initialState 1 1 0 ResourceType.LAV 0).1 =
        MutationResult.ok (mkBooking 0 1 1 0 ResourceType.LAV 1) ∧
      takenUnits (createLav initialState 1 1 0 ResourceType.LAV 0).2 1 0 =
        takenUnits initialState 1 0 + 1 :=
  C4_no_capacity_check_amended initialState 1 1 0 ResourceType.LAV 0
    (by decide) (by decide)

/-- C5 (amended): the Laundry quota check compares the weekly_quotas cache
count passed in by the page (not any ledger-derived usage; no repository
code ever writes that cache) against the limit 3 for LAV and 2 for ASC:
the call fails QuotaExceeded exactly when the cached count has reached the
limit — each request adds one booking of one unit, so it is allowed exactly
when count + 1 ≤ limit — and a rejected attempt leaves the ledger
unchanged (no partial success). -/
theorem C5_quota_cache_amended (s : LedgerState) (u sl d : Nat) (rt : ResourceType)
    (q : Nat) :
    ((createLav s u sl d rt q).1 = MutationResult.quotaExceeded ↔
      (if rt = ResourceType.LAV then 3 else 2) ≤ q) ∧
      ((if rt = ResourceType.LAV then 3 else 2) ≤ q →
        (createLav s u sl d rt q).2 = s) := by
  by_cases hq : (if rt = ResourceType.LAV then 3 else 2) ≤ q
  · refine ⟨⟨fun _ => hq, fun _ => ?_⟩, fun _ => ?_⟩
    · unfold createLav
      rw [if_pos hq]
    · unfold createLav
      rw [if_pos hq]
  · refine ⟨⟨fun hres => ?_, fun h => absurd h hq⟩, fun h => absurd h hq⟩
    exfalso
    revert hres
    unfold createLav
    rw [if_neg hq]
    cases findActive s u sl d rt with
    | some b => exact fun h => MutationResult.noConfusion h
    | none =>
      by_cases hha : hasActive s u sl d rt = true
      · rw [if_pos hha]
        cases findActive s u sl d rt with
        | some b => exact fun h => MutationResult.noConfusion h
        | none => exact fun h => MutationResult.noConfusion h
      · rw [if_neg hha]
        exact fun h => MutationResult.noConfusion h

/-- C5 witness: with a cached count of 3, a LAV create fails QuotaExceeded
and leaves the ledger unchanged. -/
theorem C5_quota_cache_witness :
    (createLav initialState 1 1 0 ResourceType.LAV 3).1 =
        MutationResult.quotaExceeded ∧
      (createLav initialState 1 1 0 ResourceType.LAV 3).2 = initialState :=
  ⟨(C5_quota_cache_amended initialState 1 1 0 ResourceType.LAV 3).1.mpr (by decide),
   (C5_quota_cache_amended initialState 1 1 0 ResourceType.LAV 3).2 (by decide)⟩

/-- C6 (amended): the standing future cap of one is enforced only by the
historical Gym page variant: there, while the user has at least one active
GYM booking with date ≥ today, any further createBooking (for any slot)
fails with the standing-cap error and changes nothing; and while none
exists — in particular after the outstanding one is cancelled — a create
for a tuple with no identical active booking succeeds and restores at most
one active future booking.  The current Gym page instead enforces at most
four active GYM bookings per week, per the counterexample. -/
theorem C6_standing_cap_amended (s : LedgerState) (u sl d today : Nat) :
    (1 ≤ countActiveFuture s u today →
      createGymStanding s u sl d today = (MutationResult.standingCap, s)) ∧
      (countActiveFuture s u today = 0 →
        hasActive s u sl d ResourceType.GYM = false →
        (createGymStanding s u sl d today).1 =
            MutationResult.ok (mkBooking s.nextId u sl d ResourceType.GYM 1) ∧
          countActiveFuture (createGymStanding s u sl d today).2 u today ≤ 1) := by
  constructor
  · intro h
    unfold createGymStanding
    rw [if_pos h]
  · intro h0 hna
    have hins : createGymStanding s u sl d today =
        (MutationResult.ok (mkBooking s.nextId u sl d ResourceType.GYM 1),
         insertPost s u sl d ResourceType.GYM) := by
      unfold createGymStanding
      rw [if_neg (by omega), hna]
      rfl
    rw [hins]
    refine ⟨rfl, ?_⟩
    rw [countActiveFuture, insertPost, List.countP_append]
    rw [countActiveFuture] at h0
    rw [h0, List.countP_cons, List.countP_nil]
    split <;> omega

/-- C6 witness: with one outstanding future booking the standing-cap
variant rejects a second create; on the empty ledger it succeeds and
leaves at most one active future booking. -/
theorem C6_standing_cap_witness :
    createGymStanding gymOneFutureState 1 12 2 0 =
        (MutationResult.standingCap, gymOneFutureState) ∧
      ((createGymStanding initialState 1 12 2 0).1 =
          MutationResult.ok (mkBooking 0 1 12 2 ResourceType.GYM 1) ∧
        countActiveFuture (createGymStanding initialState 1 12 2 0).2 1 0 ≤ 1) :=
  ⟨(C6_standing_cap_amended gymOneFutureState 1 12 2 0).1 (by decide),
   (C6_standing_cap_amended initialState 1 12 2 0).2 (by decide) (by decide)⟩

/-- C7 (amended): expired-slot gating exists only in the UI layer.  The
isSlotPast predicate of src/lib/slots.ts is true exactly when the slot's
end instant (its date at its end time) is strictly before now, and it
controls only the rendering of the Book button; the createBooking
mutationFn performs no time check, so under the usual preconditions the
create succeeds even when isSlotPast holds for the requested slot and
date — no SlotExpired outcome exists. -/
theorem C7_no_expiry_check_amended (d hh mm now : Nat) (s : LedgerState)
    (u sl : Nat) (rt : ResourceType) (q : Nat)
    (hq : q < (if rt = ResourceType.LAV then 3 else 2))
    (hna : hasActive s u sl d rt = false) :
    (isSlotPast d hh mm now = true ↔ slotEndInstant d hh mm < now) ∧
      (isSlotPast d hh mm now = true →
        (createLav s u sl d rt q).1 =
          MutationResult.ok (mkBooking s.nextId u sl d rt 1)) := by
  constructor
  · simp [isSlotPast]
  · intro _
    rw [createLav_insert hq hna]

/-- C7 witness: a slot of date 0 ending 09:30 is past at now = 100000, yet
the create for it succeeds. -/
theorem C7_no_expiry_check_witness :
    (isSlotPast 0 9 30 100000 = true ↔ slotEndInstant 0 9 30 < 100000) ∧
      (createLav initialState 1 1 0 ResourceType.LAV 0).1 =
        MutationResult.ok (mkBooking 0 1 1 0 ResourceType.LAV 1) :=
  ⟨(C7_no_expiry_check_amended 0 9 30 100000 initialState 1 1 ResourceType.LAV 0
      (by decide) (by decide)).1,
   (C7_no_expiry_check_amended 0 9 30 100000 initialState 1 1 ResourceType.LAV 0
      (by decide) (by decide)).2 (by decide)⟩

/-- C8 (amended): cancelBooking applies its update unconditionally to the
rows matching the given id: it performs no findActive guard and has no
NotFound outcome, so it reports success even for an absent id (per the
counterexample), and a second cancel of an already-cancelled booking
re-updates the record, overwriting cancelled_by and cancelled_at with the
second caller and time. -/
theorem C8_cancel_unguarded_amended (s : LedgerState) (bid u1 u2 t1 t2 i : Nat)
    (b : Booking) (hrow : s.rows[i]? = some b) (hid : b.id = bid) :
    (cancelBooking s bid u1 t1).1 = none ∧
      (cancelBooking (cancelBooking s bid u1 t1).2 bid u2 t2).2.rows[i]? =
        some { b with status := BookingStatus.cancelled, cancelledBy := some u2,
                      cancelledAt := some t2 } := by
  refine ⟨rfl, ?_⟩
  rw [cancel_rows, cancel_rows, List.getElem?_map, List.getElem?_map, hrow]
  simp only [Option.map_some']
  rw [if_pos hid, if_pos (show (applyCancel u1 t1 b).id = bid from hid)]
  rfl

/-- C8 witness: cancelling booking 0 twice re-updates it; the final record
carries the second canceller and time. -/
theorem C8_cancel_unguarded_witness :
    (cancelBooking oneBookingState 0 1 10).1 = none ∧
      (cancelBooking (cancelBooking oneBookingState 0 1 10).2 0 2 20).2.rows[0]? =
        some { mkBooking 0 1 1 0 ResourceType.LAV 1 with
               status := BookingStatus.cancelled, cancelledBy := some 2,
               cancelledAt := some 20 } :=
  C8_cancel_unguarded_amended oneBookingState 0 1 2 10 20 0
    (mkBooking 0 1 1 0 ResourceType.LAV 1) rfl rfl

/-- C9: no resurrection.  In any reachable state, once a booking row is
cancelled it stays cancelled under every further operation sequence; and a
subsequent createBooking for any identity tuple with no active row (in
particular the cancelled one's) inserts a brand-new row whose fresh id
differs from the cancelled row's id, leaving the cancelled row in place
unchanged — it never reactivates the cancelled row. -/
theorem C9_no_resurrection (ops ops2 : List Op) (i : Nat) (b : Booking)
    (u sl d : Nat) (rt : ResourceType) (q : Nat)
    (hb : lookupId (run ops) i = some b) (hc : b.status = BookingStatus.cancelled) :
    (∃ b2, lookupId (run (ops ++ ops2)) i = some b2 ∧
        b2.status = BookingStatus.cancelled) ∧
      (hasActive (run ops) u sl d rt = false →
        q < (if rt = ResourceType.LAV then 3 else 2) →
        (createLav (run ops) u sl d rt q).1 =
            MutationResult.ok (mkBooking (run ops).nextId u sl d rt 1) ∧
          (mkBooking (run ops).nextId u sl d rt 1).id ≠ i ∧
          mkBooking (run ops).nextId u sl d rt 1 ≠ b ∧
          lookupId (createLav (run ops) u sl d rt q).2 i = some b) := by
  constructor
  · rw [run, List.foldl_append]
    exact foldl_pres_cancelled ops2 (run ops) i b hb hc
  · intro hna hq
    have hfresh : i < (run ops).nextId := by
      rcases lookupId_mem_id hb with ⟨hmem, hid⟩
      have := run_idsBounded ops b hmem
      omega
    refine ⟨?_, ?_, ?_, ?_⟩
    · rw [createLav_insert hq hna]
    · show (run ops).nextId ≠ i
      omega
    · intro heq
      have hst : (mkBooking (run ops).nextId u sl d rt 1).status = b.status := by
        rw [heq]
      rw [hc] at hst
      exact BookingStatus.noConfusion hst
    · rw [createLav_insert hq hna]
      exact lookupId_insertPost hb u sl d rt

/-- C9 witness: after booking and cancelling id 0, the cancelled row
survives any continuation, and a new create for a free tuple inserts the
fresh id 1 while row 0 stays cancelled. -/
theorem C9_no_resurrection_witness :
    (∃ b2, lookupId (run (opsEx ++ [])) 0 = some b2 ∧
        b2.status = BookingStatus.cancelled) ∧
      ((createLav (run opsEx) 1 6 0 ResourceType.LAV 0).1 =
          MutationResult.ok (mkBooking (run opsEx).nextId 1 6 0 ResourceType.LAV 1) ∧
        (mkBooking (run opsEx).nextId 1 6 0 ResourceType.LAV 1).id ≠ 0 ∧
        mkBooking (run opsEx).nextId 1 6 0 ResourceType.LAV 1 ≠ cancelledBookingEx ∧
        lookupId (createLav (run opsEx) 1 6 0 ResourceType.LAV 0).2 0 =
          some cancelledBookingEx) :=
  ⟨(C9_no_resurrection opsEx [] 0 cancelledBookingEx 1 6 0 ResourceType.LAV 0
      (by decide) (by decide)).1,
   (C9_no_resurrection opsEx [] 0 cancelledBookingEx 1 6 0 ResourceType.LAV 0
      (by decide) (by decide)).2 (by decide) (by decide)⟩

/-- C10: frame property of cancellation.  cancelBooking reports success,
keeps the id sequence and the row count, leaves every row whose id differs
from the given one exactly as it was, and rewrites a matching row to the
same record with only status (cancelled), cancelled_by (the acting user)
and cancelled_at (the current time) changed — id, user_id, slot_id,
booking_date, resource_type, units, cancellation_reason and created_at are
preserved. -/
theorem C10_cancel_frame (s : LedgerState) (bid uid t i : Nat) (b : Booking)
    (hrow : s.rows[i]? = some b) :
    (cancelBooking s bid uid t).1 = none ∧
      (cancelBooking s bid uid t).2.nextId = s.nextId ∧
      (cancelBooking s bid uid t).2.rows.length = s.rows.length ∧
      (b.id ≠ bid → (cancelBooking s bid uid t).2.rows[i]? = some b) ∧
      (b.id = bid →
        (cancelBooking s bid uid t).2.rows[i]? =
          some { id := b.id, userId := b.userId, slotId := b.slotId,
                 bookingDate := b.bookingDate, resourceType := b.resourceType,
                 units := b.units, status := BookingStatus.cancelled,
                 cancelledBy := some uid, cancelledAt := some t,
                 cancellationReason := b.cancellationReason,
                 createdAt := b.createdAt }) := by
  refine ⟨rfl, rfl, ?_, ?_, ?_⟩
  · rw [cancel_rows, List.length_map]
  · intro hneq
    rw [cancel_rows, List.getElem?_map, hrow]
    simp only [Option.map_some']
    rw [if_neg hneq]
  · intro heq
    rw [cancel_rows, List.getElem?_map, hrow]
    simp only [Option.map_some']
    rw [if_pos heq]
    rfl

/-- C10 witness: cancelling the single booking of a one-row ledger touches
exactly the three cancellation fields of that row. -/
theorem C10_cancel_frame_witness :
    ((cancelBooking oneBookingState 0 9 77).1 = none ∧
        (cancelBooking oneBookingState 0 9 77).2.nextId = oneBookingState.nextId ∧
        (cancelBooking oneBookingState 0 9 77).2.rows.length =
          oneBookingState.rows.length) ∧
      (cancelBooking oneBookingState 0 9 77).2.rows[0]? =
        some { id := 0, userId := 1, slotId := 1, bookingDate := 0,
               resourceType := ResourceType.LAV, units := 1,
               status := BookingStatus.cancelled, cancelledBy := some 9,
               cancelledAt := some 77, cancellationReason := none,
               createdAt := 0 } :=
  ⟨⟨(C10_cancel_frame oneBookingState 0 9 77 0
        (mkBooking 0 1 1 0 ResourceType.LAV 1) rfl).1,
    (C10_cancel_frame oneBookingState 0 9 77 0
        (mkBooking 0 1 1 0 ResourceType.LAV 1) rfl).2.1,
    (C10_cancel_frame oneBookingState 0 9 77 0
        (mkBooking 0 1 1 0 ResourceType.LAV 1) rfl).2.2.1⟩,
   (C10_cancel_frame oneBookingState 0 9 77 0
        (mkBooking 0 1 1 0 ResourceType.LAV 1) rfl).2.2.2.2 rfl⟩

end GolgiConnect
